import Mathlib

/-!
Verification of the Lex appointment-booking chatbot backend
(src/lambda_complete_2.py) against its natural-language specification.

The DynamoDB tables are modelled as an explicit `Store` value threaded
through the handler; Python optional slot values become `Option String`
with explicit truthiness; the one uncaught exception source reachable from
the store (a ClientError raised by the schedule scan, or an IndexError from
splitting a malformed Date_Time) is injected through a `scanFail` flag and
an `Option` result of the availability query.
-/

namespace LexChatbot

/-- A row of the DoctorSchedule table: one doctor's one time slot. -/
structure ScheduleItem where
  doctorName : String
  dateTime : String
  status : String
deriving DecidableEq, Repr

/-- A row of the Appointments table, as written by the fulfillment step. -/
structure Appointment where
  appointmentId : String
  doctorName : String
  date : String
  time : String
  name : String
  phone : String
  status : String
deriving DecidableEq, Repr

/-- The three DynamoDB tables used by the handler: DoctorSchedule,
Appointments, and the IdCounters row for the appointment_id counter. -/
structure Store where
  schedule : List ScheduleItem
  appointments : List Appointment
  counter : Option Nat
deriving DecidableEq, Repr

/-- The six slots of the booking intent; each holds the interpreted value
when present (Python None at any level of the slot object becomes `none`). -/
structure Slots where
  doctorName : Option String
  date : Option String
  time : Option String
  name : Option String
  phone : Option String
  confirmation : Option String
deriving DecidableEq, Repr

/-- The intent object of a Lex event or response. -/
structure Intent where
  name : String
  slots : Slots
  state : Option String
  confirmationState : Option String
deriving DecidableEq, Repr

/-- The parts of the Lex event read by the handler. -/
structure Event where
  intent : Intent
  invocationSource : String
deriving DecidableEq, Repr

/-- The dialogAction of a response. -/
inductive DialogAction where
  | elicitSlot (slotToElicit : String)
  | delegate
  | close
deriving DecidableEq, Repr

/-- A handler response: the dialogAction, the returned intent, and the
PlainText message contents (empty when the response has no messages key). -/
structure Response where
  dialogAction : DialogAction
  intent : Intent
  messages : List String
deriving DecidableEq, Repr

/-- The result of one turn: the response plus the store as left behind. -/
structure HandlerResult where
  response : Response
  store : Store
deriving DecidableEq, Repr

/-- Python truthiness of an optional string value (None and "" are falsy). -/
def truthy : Option String → Bool
  | none => false
  | some s => s != ""

/-- How Python interpolates an optional value into an f-string. -/
def pyStr : Option String → String
  | none => "None"
  | some s => s

/-- Python str.lower(), on the ASCII range (all doctor names are ASCII). -/
def py_lower (s : String) : String := ⟨s.data.map Char.toLower⟩

/-- Python str.upper(), on the ASCII range. -/
def py_upper (s : String) : String := ⟨s.data.map Char.toUpper⟩

/-- Python str.strip(): drop whitespace from both ends. -/
def py_strip (s : String) : String :=
  ⟨((s.data.dropWhile Char.isWhitespace).reverse.dropWhile
      Char.isWhitespace).reverse⟩

/-- The last seven characters of a string (Python s[-7:]). -/
def last7 (s : String) : String := ⟨s.data.drop (s.data.length - 7)⟩

/-- Embedding of get_next_sequence (lines 15-26): the atomic counter update
SET current_value = if_not_exists(current_value, 1000000) + 1 applied to the
current counter value, returning the last 7 digits of the new value together
with the new stored value. -/
def get_next_sequence (counter : Option Nat) : String × Nat :=
  let newVal := counter.getD 1000000 + 1
  (last7 (toString newVal), newVal)

/-- The characters after the first occurrence of c, or none if c is absent. -/
def afterFirst (c : Char) : List Char → Option (List Char)
  | [] => none
  | x :: xs => if x = c then some xs else afterFirst c xs

/-- Python s.split(c)[1]: the text between the first and second occurrence of
c; `none` models the IndexError raised when c does not occur in s. -/
def split_second (c : Char) (s : String) : Option String :=
  (afterFirst c s.data).map fun r => ⟨r.takeWhile (· != c)⟩

/-- The scan filter of get_available_times:
DoctorName = :doc AND begins_with(Date_Time, :dt) AND Status = available. -/
def scanMatch (doctor date : String) (it : ScheduleItem) : Bool :=
  it.doctorName == doctor && date.data.isPrefixOf it.dateTime.data &&
    it.status == "available"

/-- Embedding of get_available_times (lines 35-46). `none` models an
exception escaping the call: a ClientError raised by the scan (injected by
scanFail) or an IndexError from split on a Date_Time with no underscore;
neither is caught before the outermost boundary. -/
def get_available_times (scanFail : Bool) (s : Store) (doctor date : String) :
    Option (List String) :=
  if scanFail then none
  else (s.schedule.filter (scanMatch doctor date)).mapM fun it =>
    split_second '_' it.dateTime

/-- The enumerated doctor list of line 56. -/
def VALID_DOCTORS : List String :=
  ["Dr. Sarah Jones", "Dr. Sophia Lee", "Dr. David Park"]

/-- Line 78: next(d for d in VALID_DOCTORS if d.lower() == doctor.lower()). -/
def canonicalDoctor (d : String) : Option String :=
  VALID_DOCTORS.find? fun v => py_lower v == py_lower d

/-- The normalized_time computation of lines 125-126: strip, upper-case,
drop spaces and dots, keep digits and colons. Its value is never read. -/
def normalize_time (t : String) : String :=
  let u : List Char := (py_upper (py_strip t)).data.filter fun c => c != ' ' && c != '.'
  ⟨u.filter fun c => c.isDigit || c == ':'⟩

/-- The status of the slot with the given key, none if no such item exists
(DynamoDB keys are unique; on a list store the first match is taken). -/
def slotStatus (s : Store) (doctor dateTime : String) : Option String :=
  (s.schedule.find? fun it =>
    it.doctorName == doctor && it.dateTime == dateTime).map (·.status)

/-- The write half of the conditional update of lines 262-271:
SET Status = booked on the item with the given key. -/
def bookSlot (s : Store) (doctor dateTime : String) : Store :=
  ⟨s.schedule.map fun it =>
    if it.doctorName == doctor && it.dateTime == dateTime then
      ⟨it.doctorName, it.dateTime, "booked"⟩ else it,
   s.appointments, s.counter⟩

/-- The six-slot reset value used by the restart responses. -/
def emptySlots : Slots := ⟨none, none, none, none, none, none⟩

/-- Lines 323-334: the outermost except block. The intent echoed there is
the event's intent object as it stands when the exception is raised (the
same mutable dict, so a DoctorName canonicalized on line 79 stays). -/
def unhandled_exception (intent : Intent) (s : Store) : HandlerResult :=
  ⟨⟨.close, intent, ["Something went wrong. Please try again later."]⟩, s⟩

/-- Lines 257-313, the Booking Committer of one fulfillment turn: the
conditional available-to-booked transition, then sequence issuance and the
appointment write on success, or the conflict Close on condition failure. -/
def step7_commit (intent1 : Intent) (doc dt tm nm ph : String) (s : Store) :
    HandlerResult :=
  let datetime_key := dt ++ "_" ++ tm
  if slotStatus s doc datetime_key == some "available" then
    let s1 := bookSlot s doc datetime_key
    let seq := get_next_sequence s1.counter
    let appointment_id := seq.fst
    let s2 : Store :=
      ⟨s1.schedule,
       s1.appointments ++ [⟨appointment_id, doc, dt, tm, nm, ph, "confirmed"⟩],
       some seq.snd⟩
    ⟨⟨.close, ⟨intent1.name, intent1.slots, some "Fulfilled", none⟩,
      [s!"✅ Appointment confirmed!\nID: {appointment_id}\nDoctor: {doc}\nDate: {dt}\nTime: {tm}"]⟩,
     s2⟩
  else
    ⟨⟨.close, intent1,
      ["❌ Sorry, that time slot was just booked by someone else. Please try another time."]⟩,
     s⟩

/-- Steps 4-7 and the default fallback (lines 174-321), reached once the
elicitation checks of steps 1-3 have not returned. -/
def steps4to7 (invocation_source confirmation_state : String)
    (intent1 : Intent) (s : Store) : HandlerResult :=
  let slots1 := intent1.slots
  let doctor := slots1.doctorName
  let date := slots1.date
  let time := slots1.time
  let nm := slots1.name
  let ph := slots1.phone
  let confirmation := slots1.confirmation
  if truthy doctor && truthy date && truthy time && truthy nm && truthy ph &&
      !truthy confirmation then
    let doc := pyStr doctor
    let dt := pyStr date
    let tm := pyStr time
    let n := pyStr nm
    let p := pyStr ph
    ⟨⟨.elicitSlot "Confirmation", intent1,
      [s!"Please confirm your booking details:\nDoctor: {doc}\nDate: {dt}\nTime: {tm}\nName: {n}\nPhone: {p}\nIs this correct?"]⟩,
     s⟩
  else if truthy confirmation && py_lower (pyStr confirmation) == "no" then
    ⟨⟨.elicitSlot "DoctorName",
      ⟨intent1.name, emptySlots, some "InProgress", none⟩,
      ["Okay, let's start over. Which doctor would you like to book an appointment with?"]⟩,
     s⟩
  else if truthy confirmation && py_lower (pyStr confirmation) == "yes" then
    ⟨⟨.delegate, intent1, []⟩, s⟩
  else if confirmation_state == "Denied" then
    ⟨⟨.elicitSlot "DoctorName",
      ⟨intent1.name, emptySlots, some "InProgress", none⟩,
      ["Your booking was canceled. Which doctor would you like to book with?"]⟩,
     s⟩
  else if invocation_source == "FulfillmentCodeHook" &&
      confirmation_state == "Confirmed" then
    step7_commit intent1 (pyStr doctor) (pyStr date) (pyStr time)
      (pyStr nm) (pyStr ph) s
  else
    ⟨⟨.delegate, intent1, []⟩, s⟩

/-- The in-place slot mutation of line 79: when a truthy DoctorName was
supplied (and validated), it is overwritten with the canonical casing. -/
def mkSlots1 (s0 : Slots) : Slots :=
  if truthy s0.doctorName then
    ⟨some ((canonicalDoctor (pyStr s0.doctorName)).getD (pyStr s0.doctorName)),
     s0.date, s0.time, s0.name, s0.phone, s0.confirmation⟩
  else s0

/-- The event's intent object after the line-79 mutation. -/
def mkIntent1 (i : Intent) : Intent :=
  ⟨i.name, mkSlots1 i.slots, i.state, i.confirmationState⟩

/-- Embedding of lambda_handler (lines 48-334). `scanFail` injects a
ClientError raised by the schedule-table scan; such an exception is not
caught locally and reaches the outermost boundary. -/
def lambda_handler (scanFail : Bool) (event : Event) (s : Store) :
    HandlerResult :=
  let intent0 := event.intent
  let slots0 := intent0.slots
  let invocation_source := event.invocationSource
  let confirmation_state := intent0.confirmationState.getD ""
  let doctor0 := slots0.doctorName
  if truthy doctor0 &&
      !(VALID_DOCTORS.any fun d => py_lower d == py_lower (pyStr doctor0)) then
    ⟨⟨.elicitSlot "DoctorName", intent0,
      ["Please choose from our available doctors:\n- Dr. Sarah Jones\n- Dr. Sophia Lee\n- Dr. David Park"]⟩,
     s⟩
  else
    let slots1 : Slots := mkSlots1 slots0
    let intent1 : Intent := mkIntent1 intent0
    let doctor := slots1.doctorName
    let date := slots1.date
    let time := slots1.time
    if truthy doctor && truthy date && !truthy time then
      match get_available_times scanFail s (pyStr doctor) (pyStr date) with
      | none => unhandled_exception intent1 s
      | some available_times =>
        let doc := pyStr doctor
        let dt := pyStr date
        if available_times.isEmpty then
          ⟨⟨.elicitSlot "Date",
            ⟨intent1.name,
             ⟨slots1.doctorName, none, slots1.time, slots1.name, slots1.phone,
              slots1.confirmation⟩,
             intent1.state, intent1.confirmationState⟩,
            [s!"Sorry, {doc} has no available slots on {dt}. Please choose another date."]⟩,
           s⟩
        else
          let avail_str := String.intercalate ", " available_times
          ⟨⟨.elicitSlot "Time", intent1,
            [s!"{doc} is available on {dt} at: {avail_str}. Please choose a time."]⟩,
           s⟩
    else if truthy doctor && truthy date && truthy time then
      match get_available_times scanFail s (pyStr doctor) (pyStr date) with
      | none => unhandled_exception intent1 s
      | some available_times =>
        let _normalized_time := normalize_time (pyStr time)
        if !(available_times.contains (pyStr time)) then
          let doc := pyStr doctor
          let dt := pyStr date
          let tm := pyStr time
          let avail_str := String.intercalate ", " available_times
          ⟨⟨.elicitSlot "Time", intent1,
            [s!"Sorry, {tm} is not available. {doc} is available on {dt} at: {avail_str}. Please choose one of these times."]⟩,
           s⟩
        else if !truthy slots1.name then
          ⟨⟨.elicitSlot "Name", intent1, ["May I know your name?"]⟩, s⟩
        else if !truthy slots1.phone then
          ⟨⟨.elicitSlot "Phone", intent1,
            ["Could you please provide your phone number?"]⟩,
           s⟩
        else
          steps4to7 invocation_source confirmation_state intent1 s
    else
      steps4to7 invocation_source confirmation_state intent1 s

/-- The handler with the normalized_time computation of lines 125-126
removed, and no other change; used to state that the computation is dead. -/
def lambda_handler_no_normalize (scanFail : Bool) (event : Event) (s : Store) :
    HandlerResult :=
  let intent0 := event.intent
  let slots0 := intent0.slots
  let invocation_source := event.invocationSource
  let confirmation_state := intent0.confirmationState.getD ""
  let doctor0 := slots0.doctorName
  if truthy doctor0 &&
      !(VALID_DOCTORS.any fun d => py_lower d == py_lower (pyStr doctor0)) then
    ⟨⟨.elicitSlot "DoctorName", intent0,
      ["Please choose from our available doctors:\n- Dr. Sarah Jones\n- Dr. Sophia Lee\n- Dr. David Park"]⟩,
     s⟩
  else
    let slots1 : Slots := mkSlots1 slots0
    let intent1 : Intent := mkIntent1 intent0
    let doctor := slots1.doctorName
    let date := slots1.date
    let time := slots1.time
    if truthy doctor && truthy date && !truthy time then
      match get_available_times scanFail s (pyStr doctor) (pyStr date) with
      | none => unhandled_exception intent1 s
      | some available_times =>
        let doc := pyStr doctor
        let dt := pyStr date
        if available_times.isEmpty then
          ⟨⟨.elicitSlot "Date",
            ⟨intent1.name,
             ⟨slots1.doctorName, none, slots1.time, slots1.name, slots1.phone,
              slots1.confirmation⟩,
             intent1.state, intent1.confirmationState⟩,
            [s!"Sorry, {doc} has no available slots on {dt}. Please choose another date."]⟩,
           s⟩
        else
          let avail_str := String.intercalate ", " available_times
          ⟨⟨.elicitSlot "Time", intent1,
            [s!"{doc} is available on {dt} at: {avail_str}. Please choose a time."]⟩,
           s⟩
    else if truthy doctor && truthy date && truthy time then
      match get_available_times scanFail s (pyStr doctor) (pyStr date) with
      | none => unhandled_exception intent1 s
      | some available_times =>
        if !(available_times.contains (pyStr time)) then
          let doc := pyStr doctor
          let dt := pyStr date
          let tm := pyStr time
          let avail_str := String.intercalate ", " available_times
          ⟨⟨.elicitSlot "Time", intent1,
            [s!"Sorry, {tm} is not available. {doc} is available on {dt} at: {avail_str}. Please choose one of these times."]⟩,
           s⟩
        else if !truthy slots1.name then
          ⟨⟨.elicitSlot "Name", intent1, ["May I know your name?"]⟩, s⟩
        else if !truthy slots1.phone then
          ⟨⟨.elicitSlot "Phone", intent1,
            ["Could you please provide your phone number?"]⟩,
           s⟩
        else
          steps4to7 invocation_source confirmation_state intent1 s
    else
      steps4to7 invocation_source confirmation_state intent1 s

/-! Concrete fixtures used by counterexamples and witnesses. -/

/-- The fully filled slot set of the happy-path scenario, with a chosen
Confirmation value. -/
def happySlots (conf : Option String) : Slots :=
  ⟨some "Dr. Sarah Jones", some "2025-05-05", some "09:00", some "Alice",
   some "0123456789", conf⟩

/-- The happy-path intent at fulfillment, Confirmed by the upstream layer. -/
def happyIntent (conf : Option String) : Intent :=
  ⟨"BookAppointment", happySlots conf, some "ReadyForFulfillment",
   some "Confirmed"⟩

/-- The happy-path fulfillment event. -/
def happyEvent (conf : Option String) : Event :=
  ⟨happyIntent conf, "FulfillmentCodeHook"⟩

/-- A store holding the single targeted slot, still available. -/
def availStore : Store :=
  ⟨[⟨"Dr. Sarah Jones", "2025-05-05_09:00", "available"⟩], [], none⟩

/-- A store in which the targeted slot has already been booked. -/
def bookedStore : Store :=
  ⟨[⟨"Dr. Sarah Jones", "2025-05-05_09:00", "booked"⟩], [], none⟩

/-- The conflicting store of the race scenario: the targeted slot is already
booked, while a second schedule row with the same scanned date prefix still
lists the 09:00 label as available, so the step-2 availability check passes
and the commit is reached. -/
def racyStore : Store :=
  ⟨[⟨"Dr. Sarah Jones", "2025-05-05_09:00", "booked"⟩,
    ⟨"Dr. Sarah Jones", "2025-05-05x_09:00", "available"⟩], [], none⟩

/-- An event whose DoctorName is not one of the enumerated doctors, with
every other slot (including Confirmation = no) filled. -/
def invalidDoctorEvent : Event :=
  ⟨⟨"BookAppointment", ⟨some "Dr. Nobody", some "2025-05-05", some "09:00",
    some "Alice", some "0123456789", some "no"⟩, none, none⟩, "DialogCodeHook"⟩

/-- An elicitation-phase event carrying a correctly spelled doctor in the
wrong casing, with Date supplied and Time still unset. -/
def lcDoctorEvent : Event :=
  ⟨⟨"BookAppointment", ⟨some "dr. sarah jones", some "2025-05-05", none, none,
    none, none⟩, none, none⟩, "DialogCodeHook"⟩

/-! Shared helper lemmas. -/

lemma canonical_any (d cd : String) (h : canonicalDoctor d = some cd) :
    (VALID_DOCTORS.any fun v => py_lower v == py_lower d) = true := by
  unfold canonicalDoctor at h
  have hp := List.find?_some h
  exact List.any_eq_true.mpr ⟨cd, List.mem_of_find?_eq_some h, by simpa using hp⟩

lemma canonical_ne_empty (d cd : String) (h : canonicalDoctor d = some cd) :
    cd ≠ "" := by
  unfold canonicalDoctor at h
  have hall : ∀ x ∈ VALID_DOCTORS, x ≠ "" := by decide
  exact hall cd (List.mem_of_find?_eq_some h)

lemma find?_map_booked (d k v : String) (l : List ScheduleItem)
    (h : (l.find? fun it => it.doctorName == d && it.dateTime == k).map
        (fun x => x.status) = some v) :
    ((l.map fun it =>
        if it.doctorName == d && it.dateTime == k then
          ScheduleItem.mk it.doctorName it.dateTime "booked" else it).find?
      fun it => it.doctorName == d && it.dateTime == k).map
        (fun x => x.status) = some "booked" := by
  induction l with
  | nil => simp at h
  | cons x xs ih =>
    by_cases hx : (x.doctorName == d && x.dateTime == k) = true
    · rw [List.map_cons, if_pos hx]
      simp only [List.find?]
      rw [hx]
      rfl
    · have hx2 : (x.doctorName == d && x.dateTime == k) = false :=
        Bool.not_eq_true _ |>.mp hx
      rw [List.map_cons, if_neg hx]
      simp only [List.find?] at h ⊢
      rw [hx2] at h ⊢
      exact ih h

/-- After the conditional transition succeeds, the targeted slot reads as
booked. -/
lemma slotStatus_bookSlot_self (s : Store) (d k v : String)
    (h : slotStatus s d k = some v) :
    slotStatus (bookSlot s d k) d k = some "booked" := by
  unfold slotStatus at h
  unfold slotStatus bookSlot
  exact find?_map_booked d k v s.schedule h

/-- The line-79 mutation, spelled out when the supplied doctor is valid. -/
lemma mkSlots1_eq (s0 : Slots) (d cd : String) (hd : s0.doctorName = some d)
    (hdne : d ≠ "") (hcanon : canonicalDoctor d = some cd) :
    mkSlots1 s0 = ⟨some cd, s0.date, s0.time, s0.name, s0.phone,
      s0.confirmation⟩ := by
  unfold mkSlots1
  rw [hd]
  simp [truthy, hdne, pyStr, hcanon]

/-- On a turn with a valid doctor, a date and a time all supplied, the
handler reduces to the step-2 time-acceptance check and its continuation. -/
lemma handler_to_time_branch (ev : Event) (st : Store)
    (d cd date time : String) (ats : List String)
    (hd : ev.intent.slots.doctorName = some d) (hdne : d ≠ "")
    (hcanon : canonicalDoctor d = some cd)
    (hdate : ev.intent.slots.date = some date) (hdatene : date ≠ "")
    (htime : ev.intent.slots.time = some time) (htimene : time ≠ "")
    (hats : get_available_times false st cd date = some ats) :
    lambda_handler false ev st =
      if !(ats.contains time) then
        ⟨⟨.elicitSlot "Time", mkIntent1 ev.intent,
          ["Sorry, " ++ time ++ " is not available. " ++ cd ++
            " is available on " ++ date ++ " at: " ++
            String.intercalate ", " ats ++
            ". Please choose one of these times."]⟩,
         st⟩
      else if !truthy ev.intent.slots.name then
        ⟨⟨.elicitSlot "Name", mkIntent1 ev.intent, ["May I know your name?"]⟩,
         st⟩
      else if !truthy ev.intent.slots.phone then
        ⟨⟨.elicitSlot "Phone", mkIntent1 ev.intent,
          ["Could you please provide your phone number?"]⟩,
         st⟩
      else
        steps4to7 ev.invocationSource (ev.intent.confirmationState.getD "")
          (mkIntent1 ev.intent) st := by
  have hcdne := canonical_ne_empty d cd hcanon
  have e0 := mkSlots1_eq ev.intent.slots d cd hd hdne hcanon
  have hany := canonical_any d cd hcanon
  simp only [lambda_handler, mkIntent1, e0, hd, hdate, htime, pyStr]
  simp [truthy, hdne, hdatene, htimene, hcdne, hany, hats, pyStr]
  rfl


/-- The successful commit, spelled out. -/
lemma step7_commit_success (i : Intent) (doc dt tm nm ph : String) (s : Store)
    (h : slotStatus s doc (dt ++ "_" ++ tm) = some "available") :
    step7_commit i doc dt tm nm ph s =
      ⟨⟨.close, ⟨i.name, i.slots, some "Fulfilled", none⟩,
        ["✅ Appointment confirmed!\nID: " ++ (get_next_sequence s.counter).fst ++
          "\nDoctor: " ++ doc ++ "\nDate: " ++ dt ++ "\nTime: " ++ tm]⟩,
       ⟨(bookSlot s doc (dt ++ "_" ++ tm)).schedule,
        s.appointments ++ [⟨(get_next_sequence s.counter).fst, doc, dt, tm, nm,
          ph, "confirmed"⟩],
        some (get_next_sequence s.counter).snd⟩⟩ := by
  unfold step7_commit
  rw [if_pos (by rw [h]; rfl)]
  show HandlerResult.mk
    (Response.mk .close ⟨i.name, i.slots, some "Fulfilled", none⟩
      ["✅ Appointment confirmed!\nID: " ++ (get_next_sequence s.counter).fst ++
        "\nDoctor: " ++ doc ++ "\nDate: " ++ dt ++ "\nTime: " ++ tm ++ ""])
    ⟨(bookSlot s doc (dt ++ "_" ++ tm)).schedule,
     s.appointments ++ [⟨(get_next_sequence s.counter).fst, doc, dt, tm, nm,
       ph, "confirmed"⟩],
     some (get_next_sequence s.counter).snd⟩ = _
  rw [String.append_empty]

/-- The failed commit: conflict message, store untouched. -/
lemma step7_commit_conflict (i : Intent) (doc dt tm nm ph : String) (s : Store)
    (h : slotStatus s doc (dt ++ "_" ++ tm) ≠ some "available") :
    step7_commit i doc dt tm nm ph s =
      ⟨⟨.close, i,
        ["❌ Sorry, that time slot was just booked by someone else. Please try another time."]⟩,
       s⟩ := by
  unfold step7_commit
  rw [if_neg (by simp [h])]

/-- Steps 4-6 all fall through when a non-yes/no Confirmation value is
present, the source is the fulfillment hook and the phase is Confirmed. -/
lemma steps4to7_to_commit (isrc cst : String) (i : Intent) (s : Store)
    (conf : String) (hc : i.slots.confirmation = some conf) (hne : conf ≠ "")
    (hno : py_lower conf ≠ "no") (hyes : py_lower conf ≠ "yes")
    (hsrc : isrc = "FulfillmentCodeHook") (hcst : cst = "Confirmed") :
    steps4to7 isrc cst i s =
      step7_commit i (pyStr i.slots.doctorName) (pyStr i.slots.date)
        (pyStr i.slots.time) (pyStr i.slots.name) (pyStr i.slots.phone) s := by
  subst hsrc hcst
  unfold steps4to7
  rw [if_neg (by rw [hc]; simp [truthy, hne])]
  rw [if_neg (by rw [hc]; simp [truthy, hne, pyStr, hno])]
  rw [if_neg (by rw [hc]; simp [truthy, hne, pyStr, hyes])]
  rw [if_neg (by decide)]
  rw [if_pos (by decide)]

/-- Step 5's negation branch: any truthy Confirmation lowering to no resets. -/
lemma steps4to7_reset_no (isrc cst : String) (i : Intent) (s : Store)
    (conf : String) (hc : i.slots.confirmation = some conf) (hne : conf ≠ "")
    (hno : py_lower conf = "no") :
    steps4to7 isrc cst i s =
      ⟨⟨.elicitSlot "DoctorName", ⟨i.name, emptySlots, some "InProgress", none⟩,
        ["Okay, let's start over. Which doctor would you like to book an appointment with?"]⟩,
       s⟩ := by
  unfold steps4to7
  rw [if_neg (by rw [hc]; simp [truthy, hne])]
  rw [if_pos (by rw [hc]; simp [truthy, hne, pyStr, hno])]

/-- Step 6's built-in denial branch. -/
lemma steps4to7_reset_denied (isrc cst : String) (i : Intent) (s : Store)
    (conf : String) (hc : i.slots.confirmation = some conf) (hne : conf ≠ "")
    (hno : py_lower conf ≠ "no") (hyes : py_lower conf ≠ "yes")
    (hcst : cst = "Denied") :
    steps4to7 isrc cst i s =
      ⟨⟨.elicitSlot "DoctorName", ⟨i.name, emptySlots, some "InProgress", none⟩,
        ["Your booking was canceled. Which doctor would you like to book with?"]⟩,
       s⟩ := by
  subst hcst
  unfold steps4to7
  rw [if_neg (by rw [hc]; simp [truthy, hne])]
  rw [if_neg (by rw [hc]; simp [truthy, hne, pyStr, hno])]
  rw [if_neg (by rw [hc]; simp [truthy, hne, pyStr, hyes])]
  rw [if_pos (by decide)]

/-- A yes or no Confirmation value always stops the turn before the commit,
leaving the store untouched. -/
lemma steps4to7_store_yes_no (isrc cst : String) (i : Intent) (s : Store)
    (conf : String) (hc : i.slots.confirmation = some conf) (hne : conf ≠ "")
    (hyn : py_lower conf = "yes" ∨ py_lower conf = "no") :
    (steps4to7 isrc cst i s).store = s := by
  unfold steps4to7
  rw [if_neg (by rw [hc]; simp [truthy, hne])]
  rcases hyn with hy | hn
  · by_cases hno : py_lower conf = "no"
    · rw [if_pos (by rw [hc]; simp [truthy, hne, pyStr, hno])]
    · rw [if_neg (by rw [hc]; simp [truthy, hne, pyStr, hno])]
      rw [if_pos (by rw [hc]; simp [truthy, hne, pyStr, hy])]
  · rw [if_pos (by rw [hc]; simp [truthy, hne, pyStr, hn])]

/-- No branch of steps 4-7 ever elicits the Time slot. -/
lemma steps4to7_not_elicit_time (isrc cst : String) (i : Intent) (s : Store) :
    (steps4to7 isrc cst i s).response.dialogAction ≠
      DialogAction.elicitSlot "Time" := by
  simp only [steps4to7, step7_commit]
  repeat' split
  all_goals simp

/-- The turn either leaves the store untouched or reduces to steps 4-7. -/
lemma lambda_handler_store_cases (sf : Bool) (ev : Event) (st : Store) :
    (lambda_handler sf ev st).store = st ∨
    lambda_handler sf ev st =
      steps4to7 ev.invocationSource (ev.intent.confirmationState.getD "")
        (mkIntent1 ev.intent) st := by
  simp only [lambda_handler]
  repeat' split
  all_goals first
    | exact Or.inl rfl
    | exact Or.inr rfl

/-- The line-79 mutation never touches the Confirmation slot. -/
lemma mkSlots1_confirmation (s0 : Slots) :
    (mkSlots1 s0).confirmation = s0.confirmation := by
  unfold mkSlots1
  split <;> rfl


/-- C1 counterexample: on the full happy-path event with Confirmation "yes"
at the fulfillment hook with phase Confirmed and the slot available, the
handler returns Delegate at step 5 and performs no store write at all — no
Appointment, no slot transition, no Close with a reference number. -/
theorem C1_counterexample :
    lambda_handler false (happyEvent (some "yes")) availStore =
      ⟨⟨.delegate, happyIntent (some "yes"), []⟩, availStore⟩ := by decide

/-- C1 (amended): on a fulfillment turn with phase Confirmed, all fields
valid and filled, the time in the recomputed availability list, the target
slot available, and a Confirmation value that does not lower-case to yes or
no, the handler appends exactly one Appointment carrying the next sequence
number, transitions the slot to booked, and returns a Close response whose
message carries the reference number and echoes doctor, date and time. -/
theorem C1_fulfillment_commit (ev : Event) (st : Store)
    (d cd date time nm ph conf : String) (ats : List String)
    (hd : ev.intent.slots.doctorName = some d) (hdne : d ≠ "")
    (hcanon : canonicalDoctor d = some cd)
    (hdate : ev.intent.slots.date = some date) (hdatene : date ≠ "")
    (htime : ev.intent.slots.time = some time) (htimene : time ≠ "")
    (hnm : ev.intent.slots.name = some nm) (hnmne : nm ≠ "")
    (hph : ev.intent.slots.phone = some ph) (hphne : ph ≠ "")
    (hconf : ev.intent.slots.confirmation = some conf) (hconfne : conf ≠ "")
    (hno : py_lower conf ≠ "no") (hyes : py_lower conf ≠ "yes")
    (hsrc : ev.invocationSource = "FulfillmentCodeHook")
    (hcs : ev.intent.confirmationState = some "Confirmed")
    (hats : get_available_times false st cd date = some ats)
    (hmem : ats.contains time = true)
    (hslot : slotStatus st cd (date ++ "_" ++ time) = some "available") :
    (lambda_handler false ev st).store.appointments =
      st.appointments ++
        [⟨(get_next_sequence st.counter).fst, cd, date, time, nm, ph,
          "confirmed"⟩] ∧
    slotStatus (lambda_handler false ev st).store cd (date ++ "_" ++ time) =
      some "booked" ∧
    (lambda_handler false ev st).response.dialogAction = DialogAction.close ∧
    (lambda_handler false ev st).response.intent.state = some "Fulfilled" ∧
    (lambda_handler false ev st).response.messages =
      ["✅ Appointment confirmed!\nID: " ++ (get_next_sequence st.counter).fst ++
        "\nDoctor: " ++ cd ++ "\nDate: " ++ date ++ "\nTime: " ++ time] := by
  have hcdne := canonical_ne_empty d cd hcanon
  have h1 := handler_to_time_branch ev st d cd date time ats hd hdne hcanon
    hdate hdatene htime htimene hats
  rw [h1]
  rw [if_neg (by rw [hmem]; decide)]
  rw [if_neg (by simp [hnm, truthy, hnmne])]
  rw [if_neg (by simp [hph, truthy, hphne])]
  have eI : mkIntent1 ev.intent =
      ⟨ev.intent.name, ⟨some cd, some date, some time, some nm, some ph,
        some conf⟩, ev.intent.state, ev.intent.confirmationState⟩ := by
    unfold mkIntent1
    rw [mkSlots1_eq ev.intent.slots d cd hd hdne hcanon, hdate, htime, hnm,
      hph, hconf]
  rw [eI, hsrc, hcs]
  simp only [Option.getD_some]
  rw [steps4to7_to_commit _ _ _ st conf rfl hconfne hno hyes rfl rfl]
  simp only [pyStr]
  rw [step7_commit_success _ _ _ _ _ _ _ hslot]
  refine ⟨rfl, ?_, rfl, rfl, rfl⟩
  exact slotStatus_bookSlot_self st cd (date ++ "_" ++ time) "available" hslot

/-- C1 witness: the amended theorem applied to the happy path with the
non-yes/no Confirmation value "ok" on the available store. -/
theorem C1_witness :
    (lambda_handler false (happyEvent (some "ok")) availStore).response.dialogAction =
      DialogAction.close :=
  (C1_fulfillment_commit (happyEvent (some "ok")) availStore
    "Dr. Sarah Jones" "Dr. Sarah Jones" "2025-05-05" "09:00" "Alice"
    "0123456789" "ok" ["09:00"] rfl (by decide) (by decide) rfl (by decide)
    rfl (by decide) rfl (by decide) rfl (by decide) rfl (by decide)
    (by decide) (by decide) rfl rfl (by decide) (by decide)
    (by decide)).2.2.1


/-- C2 counterexample: with all fields filled, Confirmation "yes", the
fulfillment hook with phase Confirmed, and the target slot already booked,
the turn's response is the step-2 Time re-elicitation (step 5 would have
returned Delegate anyway), not the conflict message the claim requires. -/
theorem C2_counterexample :
    lambda_handler false (happyEvent (some "yes")) bookedStore =
      ⟨⟨.elicitSlot "Time", happyIntent (some "yes"),
        ["Sorry, 09:00 is not available. Dr. Sarah Jones is available on 2025-05-05 at: . Please choose one of these times."]⟩,
       bookedStore⟩ ∧
    (lambda_handler false (happyEvent (some "yes")) bookedStore).response.messages ≠
      ["❌ Sorry, that time slot was just booked by someone else. Please try another time."] := by
  decide

/-- C2 (amended): on a fulfillment turn that reaches the booking commit (all
fields filled, Confirmation value not lower-casing to yes or no, phase
Confirmed, supplied time in the recomputed availability list) while the
target slot is not available at commit time, the response is the conflict
Close message and the store is left completely unchanged: no Appointment is
created and the sequence counter is not advanced. -/
theorem C2_conflict_no_commit (ev : Event) (st : Store)
    (d cd date time nm ph conf : String) (ats : List String)
    (hd : ev.intent.slots.doctorName = some d) (hdne : d ≠ "")
    (hcanon : canonicalDoctor d = some cd)
    (hdate : ev.intent.slots.date = some date) (hdatene : date ≠ "")
    (htime : ev.intent.slots.time = some time) (htimene : time ≠ "")
    (hnm : ev.intent.slots.name = some nm) (hnmne : nm ≠ "")
    (hph : ev.intent.slots.phone = some ph) (hphne : ph ≠ "")
    (hconf : ev.intent.slots.confirmation = some conf) (hconfne : conf ≠ "")
    (hno : py_lower conf ≠ "no") (hyes : py_lower conf ≠ "yes")
    (hsrc : ev.invocationSource = "FulfillmentCodeHook")
    (hcs : ev.intent.confirmationState = some "Confirmed")
    (hats : get_available_times false st cd date = some ats)
    (hmem : ats.contains time = true)
    (hslot : slotStatus st cd (date ++ "_" ++ time) ≠ some "available") :
    (lambda_handler false ev st).response.dialogAction = DialogAction.close ∧
    (lambda_handler false ev st).response.messages =
      ["❌ Sorry, that time slot was just booked by someone else. Please try another time."] ∧
    (lambda_handler false ev st).store = st := by
  have h1 := handler_to_time_branch ev st d cd date time ats hd hdne hcanon
    hdate hdatene htime htimene hats
  rw [h1]
  rw [if_neg (by rw [hmem]; decide)]
  rw [if_neg (by simp [hnm, truthy, hnmne])]
  rw [if_neg (by simp [hph, truthy, hphne])]
  have eI : mkIntent1 ev.intent =
      ⟨ev.intent.name, ⟨some cd, some date, some time, some nm, some ph,
        some conf⟩, ev.intent.state, ev.intent.confirmationState⟩ := by
    unfold mkIntent1
    rw [mkSlots1_eq ev.intent.slots d cd hd hdne hcanon, hdate, htime, hnm,
      hph, hconf]
  rw [eI, hsrc, hcs]
  simp only [Option.getD_some]
  rw [steps4to7_to_commit _ _ _ st conf rfl hconfne hno hyes rfl rfl]
  simp only [pyStr]
  rw [step7_commit_conflict _ _ _ _ _ _ _ hslot]
  exact ⟨rfl, rfl, rfl⟩

/-- C2 witness: the amended theorem applied to the race aftermath store, on
which the availability scan still lists 09:00 (from a second row sharing the
date prefix) while the targeted slot itself is already booked. -/
theorem C2_witness :
    (lambda_handler false (happyEvent (some "ok")) racyStore).store =
      racyStore :=
  (C2_conflict_no_commit (happyEvent (some "ok")) racyStore
    "Dr. Sarah Jones" "Dr. Sarah Jones" "2025-05-05" "09:00" "Alice"
    "0123456789" "ok" ["09:00"] rfl (by decide) (by decide) rfl (by decide)
    rfl (by decide) rfl (by decide) rfl (by decide) rfl (by decide)
    (by decide) (by decide) rfl rfl (by decide) (by decide)
    (by decide)).2.2

/-- C3: two commit attempts against the same available (doctor, date-time)
slot, serialized in either order by the store's atomic conditional update:
the first succeeds — Close, state Fulfilled, exactly one Appointment
appended — and the second observes the failed condition and gets the
user-visible conflict message while writing nothing. Both racers are
arbitrary, so instantiating them in the opposite order gives the other
interleaving: never both succeed, never both fail. -/
theorem C3_exactly_one_commit (st : Store) (iA iB : Intent)
    (doc dt tm nA pA nB pB : String)
    (h : slotStatus st doc (dt ++ "_" ++ tm) = some "available") :
    (step7_commit iA doc dt tm nA pA st).response.dialogAction =
      DialogAction.close ∧
    (step7_commit iA doc dt tm nA pA st).response.intent.state =
      some "Fulfilled" ∧
    (step7_commit iA doc dt tm nA pA st).store.appointments =
      st.appointments ++
        [⟨(get_next_sequence st.counter).fst, doc, dt, tm, nA, pA,
          "confirmed"⟩] ∧
    (step7_commit iB doc dt tm nB pB
        (step7_commit iA doc dt tm nA pA st).store).response.messages =
      ["❌ Sorry, that time slot was just booked by someone else. Please try another time."] ∧
    (step7_commit iB doc dt tm nB pB
        (step7_commit iA doc dt tm nA pA st).store).store =
      (step7_commit iA doc dt tm nA pA st).store := by
  have h1 := step7_commit_success iA doc dt tm nA pA st h
  have hb : slotStatus (step7_commit iA doc dt tm nA pA st).store doc
      (dt ++ "_" ++ tm) = some "booked" := by
    rw [h1]
    exact slotStatus_bookSlot_self st doc (dt ++ "_" ++ tm) "available" h
  have h2 := step7_commit_conflict iB doc dt tm nB pB
    (step7_commit iA doc dt tm nA pA st).store (by rw [hb]; decide)
  refine ⟨by rw [h1], by rw [h1], by rw [h1], by rw [h2], by rw [h2]⟩

/-- C3 witness: the race on the concrete available slot, patient A then
patient B. -/
theorem C3_witness :
    (step7_commit (happyIntent (some "ok")) "Dr. Sarah Jones" "2025-05-05"
        "09:00" "Bob" "0999" ((step7_commit (happyIntent (some "ok"))
          "Dr. Sarah Jones" "2025-05-05" "09:00" "Alice" "0123456789"
          availStore).store)).response.messages =
      ["❌ Sorry, that time slot was just booked by someone else. Please try another time."] :=
  (C3_exactly_one_commit availStore (happyIntent (some "ok"))
    (happyIntent (some "ok")) "Dr. Sarah Jones" "2025-05-05" "09:00"
    "Alice" "0123456789" "Bob" "0999" (by decide)).2.2.2.1


/-- C4: the sequence generator. From an absent counter the first issuance
stores 1,000,000 + 1 and returns the string "1000001" (the last seven digits
of 1,000,001); from any stored value n the next issuance stores exactly
n + 1 and returns toString (n + 1) truncated to its last seven characters. -/
theorem C4_sequence_generator :
    (get_next_sequence none).snd = 1000000 + 1 ∧
    (get_next_sequence none).fst = "1000001" ∧
    ∀ n : Nat, (get_next_sequence (some n)).snd = n + 1 ∧
      (get_next_sequence (some n)).fst = last7 (toString (n + 1)) :=
  ⟨rfl, by decide, fun _ => ⟨rfl, rfl⟩⟩

/-- C5 counterexample: a turn with Confirmation "no" but an invalid
DoctorName is answered by the step-1 doctor re-elicitation with every slot
value untouched — the six fields are not reset, refuting "for every turn ...
regardless of how many fields were previously filled". -/
theorem C5_counterexample :
    invalidDoctorEvent.intent.slots.confirmation = some "no" ∧
    lambda_handler false invalidDoctorEvent availStore =
      ⟨⟨.elicitSlot "DoctorName", invalidDoctorEvent.intent,
        ["Please choose from our available doctors:\n- Dr. Sarah Jones\n- Dr. Sophia Lee\n- Dr. David Park"]⟩,
       availStore⟩ ∧
    (lambda_handler false invalidDoctorEvent availStore).response.intent.slots ≠
      emptySlots := by
  decide

/-- C5 (amended): on every turn that reaches the confirmation-handling step
(valid doctor, date, time in the availability list, name and phone all
supplied), if the Confirmation value lower-cases to "no", or a non-yes/no
Confirmation value is present while the upstream phase reports Denied, the
handler resets all six slots to unset, keeps the intent name, marks the
intent InProgress, re-elicits DoctorName with a restart prompt, and leaves
the store untouched. -/
theorem C5_reset_on_negation (ev : Event) (st : Store)
    (d cd date time nm ph conf : String) (ats : List String)
    (hd : ev.intent.slots.doctorName = some d) (hdne : d ≠ "")
    (hcanon : canonicalDoctor d = some cd)
    (hdate : ev.intent.slots.date = some date) (hdatene : date ≠ "")
    (htime : ev.intent.slots.time = some time) (htimene : time ≠ "")
    (hnm : ev.intent.slots.name = some nm) (hnmne : nm ≠ "")
    (hph : ev.intent.slots.phone = some ph) (hphne : ph ≠ "")
    (hconf : ev.intent.slots.confirmation = some conf) (hconfne : conf ≠ "")
    (hats : get_available_times false st cd date = some ats)
    (hmem : ats.contains time = true)
    (hcase : py_lower conf = "no" ∨
      (py_lower conf ≠ "no" ∧ py_lower conf ≠ "yes" ∧
        ev.intent.confirmationState = some "Denied")) :
    (lambda_handler false ev st).response.dialogAction =
      DialogAction.elicitSlot "DoctorName" ∧
    (lambda_handler false ev st).response.intent.slots = emptySlots ∧
    (lambda_handler false ev st).response.intent.name = ev.intent.name ∧
    (lambda_handler false ev st).response.intent.state = some "InProgress" ∧
    ((lambda_handler false ev st).response.messages =
        ["Okay, let's start over. Which doctor would you like to book an appointment with?"] ∨
      (lambda_handler false ev st).response.messages =
        ["Your booking was canceled. Which doctor would you like to book with?"]) ∧
    (lambda_handler false ev st).store = st := by
  have h1 := handler_to_time_branch ev st d cd date time ats hd hdne hcanon
    hdate hdatene htime htimene hats
  rw [h1]
  rw [if_neg (by rw [hmem]; decide)]
  rw [if_neg (by simp [hnm, truthy, hnmne])]
  rw [if_neg (by simp [hph, truthy, hphne])]
  have eI : mkIntent1 ev.intent =
      ⟨ev.intent.name, ⟨some cd, some date, some time, some nm, some ph,
        some conf⟩, ev.intent.state, ev.intent.confirmationState⟩ := by
    unfold mkIntent1
    rw [mkSlots1_eq ev.intent.slots d cd hd hdne hcanon, hdate, htime, hnm,
      hph, hconf]
  rw [eI]
  rcases hcase with hno | ⟨hno, hyes, hden⟩
  · rw [steps4to7_reset_no _ _ _ st conf rfl hconfne hno]
    exact ⟨rfl, rfl, rfl, rfl, Or.inl rfl, rfl⟩
  · rw [hden]
    simp only [Option.getD_some]
    rw [steps4to7_reset_denied _ _ _ st conf rfl hconfne hno hyes rfl]
    exact ⟨rfl, rfl, rfl, rfl, Or.inr rfl, rfl⟩

/-- C5 witness: Confirmation "no" on the fully filled happy path resets the
six fields. -/
theorem C5_witness :
    (lambda_handler false (happyEvent (some "no")) availStore).response.intent.slots =
      emptySlots :=
  (C5_reset_on_negation (happyEvent (some "no")) availStore
    "Dr. Sarah Jones" "Dr. Sarah Jones" "2025-05-05" "09:00" "Alice"
    "0123456789" "no" ["09:00"] rfl (by decide) (by decide) rfl (by decide)
    rfl (by decide) rfl (by decide) rfl (by decide) rfl (by decide)
    (by decide) (by decide) (Or.inl (by decide))).2.1

/-- C6: when doctor (valid), date and time are all supplied, availability is
recomputed and the turn re-elicits Time exactly when the supplied time
string is not literally contained in the recomputed list — an exact string
match, no normalization consulted — and in that case the response carries
the current availability list. -/
theorem C6_time_exact_match (ev : Event) (st : Store)
    (d cd date time : String) (ats : List String)
    (hd : ev.intent.slots.doctorName = some d) (hdne : d ≠ "")
    (hcanon : canonicalDoctor d = some cd)
    (hdate : ev.intent.slots.date = some date) (hdatene : date ≠ "")
    (htime : ev.intent.slots.time = some time) (htimene : time ≠ "")
    (hats : get_available_times false st cd date = some ats) :
    (((lambda_handler false ev st).response.dialogAction =
        DialogAction.elicitSlot "Time") ↔ ats.contains time = false) ∧
    (ats.contains time = false →
      (lambda_handler false ev st).response.messages =
        ["Sorry, " ++ time ++ " is not available. " ++ cd ++
          " is available on " ++ date ++ " at: " ++
          String.intercalate ", " ats ++
          ". Please choose one of these times."]) := by
  rw [handler_to_time_branch ev st d cd date time ats hd hdne hcanon
    hdate hdatene htime htimene hats]
  by_cases hm : ats.contains time = true
  · rw [if_neg (by rw [hm]; decide)]
    constructor
    · constructor
      · intro hda
        exfalso
        by_cases hn : (!truthy ev.intent.slots.name) = true
        · rw [if_pos hn] at hda
          simp at hda
        · rw [if_neg hn] at hda
          by_cases hp : (!truthy ev.intent.slots.phone) = true
          · rw [if_pos hp] at hda
            simp at hda
          · rw [if_neg hp] at hda
            exact steps4to7_not_elicit_time _ _ _ _ hda
      · intro hf
        rw [hm] at hf
        exact absurd hf (by decide)
    · intro hf
      rw [hm] at hf
      exact absurd hf (by decide)
  · have hm2 : ats.contains time = false := Bool.not_eq_true _ |>.mp hm
    rw [if_pos (by rw [hm2]; decide)]
    exact ⟨⟨fun _ => hm2, fun _ => rfl⟩, fun _ => rfl⟩

/-- C6 witness: the exact-match acceptance on the happy path, where 09:00 is
in the availability list and Time is therefore not re-elicited. -/
theorem C6_witness :
    ((lambda_handler false (happyEvent (some "ok")) availStore).response.dialogAction =
        DialogAction.elicitSlot "Time") ↔
      (["09:00"].contains "09:00" = false) :=
  (C6_time_exact_match (happyEvent (some "ok")) availStore
    "Dr. Sarah Jones" "Dr. Sarah Jones" "2025-05-05" "09:00" ["09:00"]
    rfl (by decide) (by decide) rfl (by decide) rfl (by decide)
    (by decide)).1


/-- C7 counterexample: when the scan raises on a turn whose DoctorName was
supplied in non-canonical casing, the apology Close echoes the intent as
mutated by the line-79 canonicalization — the DoctorName value in the
response differs from the one in the event, so the original field state is
not passed through entirely unchanged. -/
theorem C7_counterexample :
    (lambda_handler true lcDoctorEvent availStore).response.messages =
      ["Something went wrong. Please try again later."] ∧
    lcDoctorEvent.intent.slots.doctorName = some "dr. sarah jones" ∧
    (lambda_handler true lcDoctorEvent availStore).response.intent.slots.doctorName =
      some "Dr. Sarah Jones" ∧
    (lambda_handler true lcDoctorEvent availStore).response.intent ≠
      lcDoctorEvent.intent := by
  decide

/-- C7 (amended): when the store scan raises (the modelled unexpected
exception) on a turn with a valid doctor and a date supplied, the handler
catches it at the outermost boundary and returns the Close apology with the
event's intent passed through as it stood at the failure — all slots
unchanged except that DoctorName has been normalized to canonical casing —
and the store untouched. -/
theorem C7_exception_apology (ev : Event) (st : Store) (d cd date : String)
    (hd : ev.intent.slots.doctorName = some d) (hdne : d ≠ "")
    (hcanon : canonicalDoctor d = some cd)
    (hdate : ev.intent.slots.date = some date) (hdatene : date ≠ "") :
    lambda_handler true ev st = unhandled_exception (mkIntent1 ev.intent) st := by
  have hcdne := canonical_ne_empty d cd hcanon
  have e0 := mkSlots1_eq ev.intent.slots d cd hd hdne hcanon
  have hany := canonical_any d cd hcanon
  have htrd : truthy ev.intent.slots.doctorName = true := by
    rw [hd]; simp [truthy, hdne]
  simp only [lambda_handler, mkIntent1, e0, hd, hdate, pyStr, htrd, hany,
    Bool.not_true, Bool.and_false, Bool.false_and]
  rw [if_neg (by decide)]
  have htd : truthy (some cd) = true := by simp [truthy, hcdne]
  have htdate : truthy (some date) = true := by simp [truthy, hdatene]
  simp only [htd, htdate, Bool.true_and]
  by_cases ht : truthy ev.intent.slots.time = true
  · rw [if_neg (by rw [ht]; decide)]
    rw [if_pos ht]
    rfl
  · have ht2 : truthy ev.intent.slots.time = false := Bool.not_eq_true _ |>.mp ht
    rw [if_pos (by rw [ht2]; decide)]
    rfl

/-- C7 witness: the scan failure on the lower-cased doctor event. -/
theorem C7_witness :
    lambda_handler true lcDoctorEvent availStore =
      unhandled_exception (mkIntent1 lcDoctorEvent.intent) availStore :=
  C7_exception_apology lcDoctorEvent availStore "dr. sarah jones"
    "Dr. Sarah Jones" "2025-05-05" rfl (by decide) (by decide) rfl (by decide)

/-- C8: whenever the Confirmation slot carries a value that lower-cases to
"yes" or "no", the turn never executes the booking commit: the store — slot
statuses, appointments table and sequence counter alike — is returned
exactly as it was, for every invocation source, confirmation state and scan
outcome. -/
theorem C8_yes_no_never_commits (sf : Bool) (ev : Event) (st : Store)
    (conf : String) (hconf : ev.intent.slots.confirmation = some conf)
    (hyn : py_lower conf = "yes" ∨ py_lower conf = "no") :
    (lambda_handler sf ev st).store = st := by
  have hne : conf ≠ "" := by
    rintro rfl
    rcases hyn with h | h <;> exact absurd h (by decide)
  rcases lambda_handler_store_cases sf ev st with h | h
  · exact h
  · rw [h]
    exact steps4to7_store_yes_no _ _ _ _ conf
      ((mkSlots1_confirmation ev.intent.slots).trans hconf) hne hyn

/-- C8 witness: Confirmation "YES" (upper-cased) at the fulfillment hook on
the available store leaves the store untouched. -/
theorem C8_witness :
    (lambda_handler false (happyEvent (some "YES")) availStore).store =
      availStore :=
  C8_yes_no_never_commits false (happyEvent (some "YES")) availStore "YES"
    rfl (Or.inl (by decide))

/-- C9: the handler as written and the handler with the lines-125-126
normalized_time computation removed return the same response and leave the
same store on every input: the acceptance check consults only the raw time
string, so the normalization is dead code. -/
theorem C9_normalization_is_dead_code :
    ∀ (sf : Bool) (ev : Event) (st : Store),
      lambda_handler sf ev st = lambda_handler_no_normalize sf ev st :=
  fun _ _ _ => rfl

/-- C10: when the supplied DoctorName is truthy but not a case-insensitive
match to the enumerated doctor set, the re-elicitation response returns the
event's intent object unchanged — the invalid DoctorName value itself is
still stored in the returned state — and the store is untouched. -/
theorem C10_invalid_doctor_keeps_state (sf : Bool) (ev : Event) (st : Store)
    (d : String) (hd : ev.intent.slots.doctorName = some d) (hdne : d ≠ "")
    (hinv : (VALID_DOCTORS.any fun v => py_lower v == py_lower d) = false) :
    lambda_handler sf ev st =
      ⟨⟨.elicitSlot "DoctorName", ev.intent,
        ["Please choose from our available doctors:\n- Dr. Sarah Jones\n- Dr. Sophia Lee\n- Dr. David Park"]⟩,
       st⟩ := by
  simp only [lambda_handler, hd, pyStr]
  rw [if_pos (by simp [truthy, hdne, hinv])]

/-- C10 witness: the invalid doctor "Dr. Nobody" with every other slot
filled is re-elicited with the full state, Date and the invalid name
included, passed back unchanged. -/
theorem C10_witness :
    lambda_handler false invalidDoctorEvent availStore =
      ⟨⟨.elicitSlot "DoctorName", invalidDoctorEvent.intent,
        ["Please choose from our available doctors:\n- Dr. Sarah Jones\n- Dr. Sophia Lee\n- Dr. David Park"]⟩,
       availStore⟩ :=
  C10_invalid_doctor_keeps_state false invalidDoctorEvent availStore
    "Dr. Nobody" rfl (by decide) (by decide)

end LexChatbot
